import Mathlib

set_option linter.unusedVariables false

/-!
Verification of the S2S (service-to-service) JWT authentication subsystem of
the enfinia-shared library: the `S2STokenGenerator` and `S2SClient` classes
and the `createS2SAuthMiddleware` Express middleware, shallowly embedded as
pure Lean functions.  JavaScript truthiness on the string-valued fields is
modelled explicitly (`Option String` with `none` for `undefined`/`null`, and
the empty string also falsy); the `jsonwebtoken` library is modelled by an
abstract token datatype carrying payload, lifetime and signing secret, with
`jwtVerify` checking the signature (secret equality) before expiry, exactly
as the library reports `JsonWebTokenError` for a bad signature and
`TokenExpiredError` only for a well-signed expired token.
-/

namespace Enfinia

/-- JavaScript falsiness of a possibly-absent string: `undefined`, `null`
and `""` are falsy, every other string truthy. -/
def jsFalsy : Option String → Bool
  | none => true
  | some s => s = ""

/-- JavaScript `a || b` on possibly-absent strings: yields `a` when truthy,
otherwise `b`. -/
def jsOr (a b : Option String) : Option String :=
  if jsFalsy a then b else a

/-- JavaScript template-literal rendering of a possibly-absent string:
`null`/`undefined` interpolate as the text "null". -/
def jsShow : Option String → String
  | none => "null"
  | some s => s

/-- JavaScript `String.prototype.startsWith`. -/
def jsStartsWith (s pre : String) : Bool :=
  pre.data.isPrefixOf s.data

/-- Reading a key from a JavaScript object literal represented as the list
of its property assignments in order: the last assignment to a key wins. -/
def objGet (props : List (String × String)) (k : String) : Option String :=
  (props.reverse.find? (fun p => p.1 = k)).map (·.2)

/-! ## Model of the `jsonwebtoken` library -/

/-- Decoded JWT payload as produced by the token generator: the claims
written by `jwt.sign` (`type`, `service`, `iat`). -/
structure JwtPayload where
  type : String
  service : String
  iat : Nat
deriving DecidableEq, Repr

/-- A JWT string, modelled abstractly: either a well-formed token produced
by `jwt.sign` (payload claims, lifetime in seconds from the `expiresIn`
option, and the signing secret standing for the signature), or any other
string, which no verification accepts. -/
inductive Jwt where
  | signed (type : String) (service : String) (iat : Nat)
      (lifetime : Nat) (secret : String)
  | malformed (raw : String)
deriving DecidableEq, Repr

/-- The two classes of `jwt.verify` exceptions the source distinguishes:
`TokenExpiredError` versus every other failure (`JsonWebTokenError` for a
malformed string or a wrong signature). -/
inductive JwtError where
  | tokenExpired
  | invalidToken
deriving DecidableEq, Repr

/-- `jwt.sign(payload, secret, expiresIn)` with `iat` set to the current
time in seconds, as the source does. -/
def jwtSign (type service : String) (now lifetime : Nat) (secret : String) : Jwt :=
  .signed type service now lifetime secret

/-- `jwt.verify(token, key)` at clock time `now` (seconds): the signature is
checked first (a token signed under a different secret raises
`JsonWebTokenError`, never `TokenExpiredError`), then expiry
(`now >= iat + lifetime`, i.e. `clockTimestamp >= exp`). -/
def jwtVerify (t : Jwt) (key : String) (now : Nat) : Except JwtError JwtPayload :=
  match t with
  | .malformed _ => .error .invalidToken
  | .signed type service iat lifetime secret =>
    if secret ≠ key then .error .invalidToken
    else if iat + lifetime ≤ now then .error .tokenExpired
    else .ok ⟨type, service, iat⟩

/-! ## `S2STokenGenerator` -/

/-- The `S2STokenGenerator` instance state: just the signing secret. -/
structure S2STokenGenerator where
  jwtSecret : String
deriving DecidableEq, Repr

/-- The `S2STokenGenerator` constructor: `jwtSecret || process.env.S2S_JWT_SECRET`,
throwing when the result is still falsy. -/
def S2STokenGenerator.construct (jwtSecret envSecret : Option String) :
    Except String S2STokenGenerator :=
  let secret := jsOr jwtSecret envSecret
  if jsFalsy secret then .error "S2S_JWT_SECRET is required"
  else .ok ⟨jsShow secret⟩

/-- Result of `generateTokens`. -/
structure TokenBundle where
  accessToken : Jwt
  refreshToken : Jwt
  expiresIn : Nat
deriving DecidableEq, Repr

/-- `S2STokenGenerator.generateTokens(serviceName)` at clock time `now`
(seconds): a 15-minute access token and a 24-hour refresh token, both
carrying the service name and signed with the generator's secret. -/
def S2STokenGenerator.generateTokens (g : S2STokenGenerator) (serviceName : String)
    (now : Nat) : TokenBundle :=
  let accessTokenExpiresIn := 15 * 60
  let refreshTokenExpiresIn := 24 * 60 * 60
  { accessToken := jwtSign "access" serviceName now accessTokenExpiresIn g.jwtSecret
    refreshToken := jwtSign "refresh" serviceName now refreshTokenExpiresIn g.jwtSecret
    expiresIn := accessTokenExpiresIn }

/-- Result of `verifyToken`: `{ valid: true, payload }` or
`{ valid: false, error }` (no payload on failure). -/
inductive VerifyResult where
  | valid (payload : JwtPayload)
  | invalid (error : String)
deriving DecidableEq, Repr

/-- `S2STokenGenerator.verifyToken(token)` at clock time `now`: wraps
`jwt.verify`, mapping `TokenExpiredError` to `"Token expired"` and every
other failure to `"Invalid token"`. -/
def S2STokenGenerator.verifyToken (g : S2STokenGenerator) (token : Jwt)
    (now : Nat) : VerifyResult :=
  match jwtVerify token g.jwtSecret now with
  | .ok payload => .valid payload
  | .error e =>
    .invalid (if e = .tokenExpired then "Token expired" else "Invalid token")

/-- Result of `refreshAccessToken`: `{ accessToken, expiresIn }` or
`{ error }`. -/
inductive RefreshTokenResult where
  | ok (accessToken : Jwt) (expiresIn : Nat)
  | err (error : String)
deriving DecidableEq, Repr

/-- `S2STokenGenerator.refreshAccessToken(refreshToken)` at clock time
`now`: verifies, rejects non-refresh types, then signs a fresh 15-minute
access token for the service carried in the refresh token's payload. -/
def S2STokenGenerator.refreshAccessToken (g : S2STokenGenerator)
    (refreshToken : Jwt) (now : Nat) : RefreshTokenResult :=
  match g.verifyToken refreshToken now with
  | .invalid e => .err e
  | .valid payload =>
    if payload.type ≠ "refresh" then .err "Invalid token type"
    else
      let accessTokenExpiresIn := 15 * 60
      .ok (jwtSign "access" payload.service now accessTokenExpiresIn g.jwtSecret)
        accessTokenExpiresIn

/-! ## HTTP transport model for `S2SClient`

The injected `httpClient` is a fetch-like function.  A request is the URL
plus the options object the source builds (method, headers, JSON body); the
JSON bodies the client serializes are modelled structurally.  A response
carries `ok`, the `text()` body, and the parsed `json()` fields the client
reads (`accessToken`, `refreshToken`, `expiresIn`). -/

/-- The JSON request bodies the client serializes with `JSON.stringify`. -/
inductive Body where
  | empty
  | authBody (apiKey serviceName : String)
  | refreshBody (refreshToken serviceName : String)
deriving DecidableEq, Repr

/-- An HTTP request as handed to the injected transport. -/
structure HttpRequest where
  url : String
  method : String
  headers : List (String × String)
  body : Body
deriving DecidableEq, Repr

/-- An HTTP response as consumed by the client: `ok`, `text()`, and the
fields read from `json()`. -/
structure HttpResponse where
  ok : Bool
  bodyText : String
  accessToken : String
  refreshToken : String
  expiresIn : Nat
deriving DecidableEq, Repr

/-- The ambient `process.env` variables the client consults. -/
structure Env where
  s2sAuthEndpoint : Option String
deriving DecidableEq, Repr

/-! ## `S2SClient` -/

/-- The `S2SClient` constructor options (the injected `httpClient` is passed
separately to each operation, since the state must stay first-order). -/
structure ClientOptions where
  serviceApiKey : Option String
  serviceName : Option String
  authEndpoint : Option String
deriving DecidableEq, Repr

/-- The mutable instance state of an `S2SClient`.  `refreshing` holds the
identity of the pending renewal promise when one is in flight;
`nextPromiseId` is model bookkeeping giving fresh promise identities. -/
structure S2SClient where
  serviceApiKey : String
  serviceName : String
  authEndpoint : Option String
  accessToken : Option String
  refreshToken : Option String
  accessTokenExpiry : Option Int
  refreshing : Option Nat
  nextPromiseId : Nat
deriving DecidableEq, Repr

/-- The `S2SClient` constructor: rejects a falsy `serviceApiKey` or
`serviceName`, defaults `authEndpoint` from `process.env.S2S_AUTH_ENDPOINT`
(read here, at construction), and initializes all token state to `null`. -/
def S2SClient.construct (opts : ClientOptions) (env : Env) :
    Except String S2SClient :=
  if jsFalsy opts.serviceApiKey then
    .error "SERVICE_API_KEY is required for S2S authentication"
  else if jsFalsy opts.serviceName then
    .error "SERVICE_NAME is required for S2S authentication"
  else
    .ok { serviceApiKey := jsShow opts.serviceApiKey
          serviceName := jsShow opts.serviceName
          authEndpoint := jsOr opts.authEndpoint env.s2sAuthEndpoint
          accessToken := none
          refreshToken := none
          accessTokenExpiry := none
          refreshing := none
          nextPromiseId := 0 }

/-- The token pair returned by `authenticate`. -/
structure TokenPair where
  accessToken : String
  refreshToken : String
deriving DecidableEq, Repr

/-- `S2SClient.authenticate()` run to completion at clock time `now` (ms)
against the injected `transport`.  `callEnv` is the ambient environment at
call time; the source never reads `process.env` here (the endpoint was
captured by the constructor), so the result does not depend on it.  Returns
the result (`Except` for a rejected promise), the updated state, and the
list of transport calls made. -/
def S2SClient.authenticate (st : S2SClient) (transport : HttpRequest → HttpResponse)
    (callEnv : Env) (now : Int) :
    Except String TokenPair × S2SClient × List HttpRequest :=
  if jsFalsy st.authEndpoint then
    (.error "S2S_AUTH_ENDPOINT not configured", st, [])
  else
    let req : HttpRequest :=
      { url := jsShow st.authEndpoint ++ "/auth/s2s/token"
        method := "POST"
        headers := [("Content-Type", "application/json")]
        body := .authBody st.serviceApiKey st.serviceName }
    let response := transport req
    if !response.ok then
      (.error ("S2S authentication failed: " ++ response.bodyText), st, [req])
    else
      let st' := { st with
        accessToken := some response.accessToken
        refreshToken := some response.refreshToken
        accessTokenExpiry := some (now + response.expiresIn * 1000) }
      (.ok ⟨response.accessToken, response.refreshToken⟩, st', [req])

/-- The value a settled `refresh()` resolves to: either the token pair from
a delegated `authenticate()`, or the bare refreshed access token. -/
inductive RefreshOutcome where
  | fromAuth (pair : TokenPair)
  | refreshed (accessToken : String)
deriving DecidableEq, Repr

/-- `S2SClient.refresh()` run to completion at clock time `now` (ms): with
no refresh token it delegates to `authenticate()`; otherwise it POSTs to the
refresh endpoint, falling back to a single `authenticate()` (after clearing
the dead refresh token) on a non-ok response, and on success updates only
the access token and its expiry. -/
def S2SClient.refresh (st : S2SClient) (transport : HttpRequest → HttpResponse)
    (callEnv : Env) (now : Int) :
    Except String RefreshOutcome × S2SClient × List HttpRequest :=
  if jsFalsy st.refreshToken then
    let (r, st', calls) := st.authenticate transport callEnv now
    (r.map .fromAuth, st', calls)
  else if jsFalsy st.authEndpoint then
    (.error "S2S_AUTH_ENDPOINT not configured", st, [])
  else
    let req : HttpRequest :=
      { url := jsShow st.authEndpoint ++ "/auth/s2s/refresh"
        method := "POST"
        headers := [("Content-Type", "application/json")]
        body := .refreshBody (jsShow st.refreshToken) st.serviceName }
    let response := transport req
    if !response.ok then
      let st1 := { st with refreshToken := none }
      let (r, st', calls) := st1.authenticate transport callEnv now
      (r.map .fromAuth, st', req :: calls)
    else
      let st' := { st with
        accessToken := some response.accessToken
        accessTokenExpiry := some (now + response.expiresIn * 1000) }
      (.ok (.refreshed response.accessToken), st', [req])

/-! ## `getValidToken` and the single-flight renewal

JavaScript executes one client's callbacks on a single thread: the body of
`getValidToken` up to `await this.refreshing` runs atomically (it contains
no `await` before that point), so overlapping calls are an interleaving in
which each caller first runs this synchronous prefix, and the pending
renewal promise settles afterwards.  `getValidTokenStep` is that synchronous
prefix; `runCallers` runs the prefixes of a burst of concurrent callers (one
clock reading each) in arrival order, counting how many `this.refresh()`
renewals get started; `settleRefreshing` is the later settling of the
pending promise, whose `.finally` clears `this.refreshing` on both the
resolved and the rejected path; `resolveCaller` is a suspended caller
resuming (`return this.accessToken`) once that promise settles. -/

/-- The `needsRefresh` test of `getValidToken`: no access token, no expiry
bookkeeping (`0` is falsy), or within 60 s of expiry. -/
def needsRefresh (st : S2SClient) (now : Int) : Bool :=
  jsFalsy st.accessToken ||
  (st.accessTokenExpiry = none || st.accessTokenExpiry = some 0) ||
  (match st.accessTokenExpiry with
   | none => false
   | some e => now > e - 60000)

/-- What a caller's synchronous prefix of `getValidToken` does: return the
cached `this.accessToken` immediately, or suspend awaiting the renewal
promise with the given identity. -/
inductive GvtAction where
  | immediate (token : Option String)
  | awaits (promiseId : Nat)
deriving DecidableEq, Repr

/-- The synchronous prefix of one `getValidToken()` call at clock time
`now`: when a renewal is needed it starts `this.refresh()` only if none is
in flight (`this.refreshing` null), recording the new pending promise, and
in either case suspends on the in-flight promise.  The third component
counts renewals started (0 or 1). -/
def getValidTokenStep (st : S2SClient) (now : Int) :
    GvtAction × S2SClient × Nat :=
  if needsRefresh st now then
    match st.refreshing with
    | some p => (.awaits p, st, 0)
    | none =>
      let p := st.nextPromiseId
      (.awaits p, { st with refreshing := some p, nextPromiseId := p + 1 }, 1)
  else (.immediate st.accessToken, st, 0)

/-- The synchronous prefixes of a burst of overlapping `getValidToken()`
calls, one clock reading per caller, run in arrival order on the shared
instance state.  Returns each caller's action, the state after the burst,
and the total number of renewals started. -/
def runCallers (times : List Int) (st : S2SClient) :
    List GvtAction × S2SClient × Nat :=
  match times with
  | [] => ([], st, 0)
  | now :: rest =>
    let (a, st1, k) := getValidTokenStep st now
    let (as, st2, ks) := runCallers rest st1
    (a :: as, st2, k + ks)

/-- The pending renewal promise settling: the `this.refresh()` body runs to
completion (mutating the state as `refresh` does) and the `.finally`
callback clears `this.refreshing`, on the resolved and the rejected path
alike. -/
def settleRefreshing (st : S2SClient) (transport : HttpRequest → HttpResponse)
    (callEnv : Env) (now : Int) :
    Except String RefreshOutcome × S2SClient × List HttpRequest :=
  let (r, st', calls) := st.refresh transport callEnv now
  (r, { st' with refreshing := none }, calls)

/-- A suspended caller resuming after the renewal settles: it executes
`return this.accessToken` against the now-current state; a caller that
never suspended already returned the token it read. -/
def resolveCaller (a : GvtAction) (stFinal : S2SClient) : Option String :=
  match a with
  | .immediate t => t
  | .awaits _ => stFinal.accessToken

/-- `S2SClient.getValidToken()` run to completion in isolation (no other
caller in flight) at clock time `now`: when a renewal is needed it awaits
`this.refresh()` — whose rejection propagates — and then returns
`this.accessToken`. -/
def S2SClient.getValidTokenRun (st : S2SClient)
    (transport : HttpRequest → HttpResponse) (callEnv : Env) (now : Int) :
    Except String (Option String) × S2SClient × List HttpRequest :=
  if needsRefresh st now then
    let (r, st', calls) := settleRefreshing
      { st with refreshing := some st.nextPromiseId,
                nextPromiseId := st.nextPromiseId + 1 }
      transport callEnv now
    match r with
    | .error e => (.error e, st', calls)
    | .ok _ => (.ok st'.accessToken, st', calls)
  else (.ok st.accessToken, st, [])

/-- The caller-supplied fetch options of `S2SClient.request`. -/
structure RequestOptions where
  method : String
  headers : List (String × String)
  body : Body
deriving DecidableEq, Repr

/-- `S2SClient.request(url, options)`: obtains a token via
`getValidToken()`, then invokes the transport once more with the original
options, the headers being the caller's spread first and then
`Authorization: Bearer <token>` and `X-Service-Name` assigned over them. -/
def S2SClient.request (st : S2SClient) (transport : HttpRequest → HttpResponse)
    (callEnv : Env) (now : Int) (url : String) (options : RequestOptions) :
    Except String HttpResponse × S2SClient × List HttpRequest :=
  match st.getValidTokenRun transport callEnv now with
  | (.error e, st', calls) => (.error e, st', calls)
  | (.ok token, st', calls) =>
    let headers := options.headers ++
      [("Authorization", "Bearer " ++ jsShow token),
       ("X-Service-Name", st.serviceName)]
    let req : HttpRequest :=
      { url := url, method := options.method, headers := headers,
        body := options.body }
    (.ok (transport req), st', calls ++ [req])

/-- `S2SClient.clearTokens()`. -/
def S2SClient.clearTokens (st : S2SClient) : S2SClient :=
  { st with accessToken := none, refreshToken := none,
            accessTokenExpiry := none }

/-! ## `createS2SAuthMiddleware` -/

/-- An incoming Express request as the S2S middleware reads it: the path
and the `Authorization` header. -/
structure MwRequest where
  path : String
  authorization : Option String
deriving DecidableEq, Repr

/-- The `req.service` info the middleware attaches. -/
structure ServiceInfo where
  name : String
  authenticated : Bool
deriving DecidableEq, Repr

/-- The observable outcome of the middleware: `next()` was called (with the
`req.service` it attached and the `X-Authenticated-Service` response header
it set, if any), or a 401 JSON response with a message and optional code. -/
inductive MwResult where
  | next (service : Option ServiceInfo) (authenticatedServiceHeader : Option String)
  | unauthorized (message : String) (code : Option String)
deriving DecidableEq, Repr

/-- The default `excludePaths` of `createS2SAuthMiddleware`. -/
def defaultExcludePaths : List String :=
  ["/health", "/healthz", "/ready", "/metrics"]

/-- The middleware returned by `createS2SAuthMiddleware`, applied to one
request at clock time `now` (seconds).  `decode` maps the bearer token
substring of the header to the abstract JWT it denotes on the wire.
Excluded path prefixes skip straight to `next()`; otherwise the Bearer
header is required, verified, and required to be an access token. -/
def s2sAuthMiddleware (jwtSecret : String) (excludePaths : List String)
    (decode : String → Jwt) (now : Nat) (req : MwRequest) : MwResult :=
  if excludePaths.any (fun p => jsStartsWith req.path p) then
    .next none none
  else
    match req.authorization with
    | none => .unauthorized "Authorization header required" none
    | some authHeader =>
      if !jsStartsWith authHeader "Bearer " then
        .unauthorized "Invalid authorization format. Use: Bearer <token>" none
      else
        let token := authHeader.drop 7
        match jwtVerify (decode token) jwtSecret now with
        | .ok payload =>
          if payload.type ≠ "access" then
            .unauthorized "Invalid token type" none
          else
            .next (some ⟨payload.service, true⟩) (some payload.service)
        | .error .tokenExpired =>
          .unauthorized "Token expired" (some "TOKEN_EXPIRED")
        | .error .invalidToken =>
          .unauthorized "Invalid token" none

/-! ## Theorems -/

/-- C2: for every service name `S` and every generator, `generateTokens S`
returns `expiresIn = 900`, and verifying its result with the same generator
round-trips: the access token verifies to `valid` with payload type
`"access"` and service exactly `S`, and the refresh token verifies to
`valid` with payload type `"refresh"` and service exactly `S`. -/
theorem generateTokens_roundTrip (g : S2STokenGenerator) (S : String) (now : Nat) :
    (g.generateTokens S now).expiresIn = 900 ∧
    g.verifyToken (g.generateTokens S now).accessToken now =
      .valid ⟨"access", S, now⟩ ∧
    g.verifyToken (g.generateTokens S now).refreshToken now =
      .valid ⟨"refresh", S, now⟩ := by
  refine ⟨rfl, ?_, ?_⟩ <;>
  simp [S2STokenGenerator.generateTokens, S2STokenGenerator.verifyToken,
    jwtVerify, jwtSign]

/-- C3: `refreshAccessToken` propagates a verification failure verbatim,
rejects a valid token whose type is not `"refresh"` with
`"Invalid token type"`, and for a valid refresh token mints a freshly
issued (`iat = now`) access token for the service carried in the refresh
token's payload, with `expiresIn = 900`; the success result carries no new
refresh token. -/
theorem refreshAccessToken_spec (g : S2STokenGenerator) (t : Jwt) (now : Nat) :
    (∀ e, g.verifyToken t now = .invalid e →
      g.refreshAccessToken t now = .err e) ∧
    (∀ p, g.verifyToken t now = .valid p → p.type ≠ "refresh" →
      g.refreshAccessToken t now = .err "Invalid token type") ∧
    (∀ p, g.verifyToken t now = .valid p → p.type = "refresh" →
      g.refreshAccessToken t now =
        .ok (Jwt.signed "access" p.service now 900 g.jwtSecret) 900) := by
  refine ⟨?_, ?_, ?_⟩ <;> intro p h
  · simp [S2STokenGenerator.refreshAccessToken, h]
  · intro hty
    simp [S2STokenGenerator.refreshAccessToken, h, hty]
  · intro hty
    simp [S2STokenGenerator.refreshAccessToken, h, hty, jwtSign]

/-- Witness for C3: each branch of `refreshAccessToken_spec` applied at a
concrete input. -/
theorem refreshAccessToken_spec_witness :
    (S2STokenGenerator.mk "k").refreshAccessToken (.malformed "x") 0 =
      .err "Invalid token" ∧
    (S2STokenGenerator.mk "k").refreshAccessToken
      (.signed "access" "svc" 0 900 "k") 0 = .err "Invalid token type" ∧
    (S2STokenGenerator.mk "k").refreshAccessToken
      (.signed "refresh" "svc" 5 86400 "k") 5 =
      .ok (.signed "access" "svc" 5 900 "k") 900 :=
  ⟨(refreshAccessToken_spec ⟨"k"⟩ (.malformed "x") 0).1 "Invalid token"
      (by decide),
   (refreshAccessToken_spec ⟨"k"⟩ (.signed "access" "svc" 0 900 "k") 0).2.1
      ⟨"access", "svc", 0⟩ (by decide) (by decide),
   (refreshAccessToken_spec ⟨"k"⟩ (.signed "refresh" "svc" 5 86400 "k") 5).2.2
      ⟨"refresh", "svc", 5⟩ (by decide) rfl⟩

/-- C4: `verifyToken` either returns `valid` with a payload or a tagged
failure with no payload whose error is one of the two strings; a malformed
string yields `"Invalid token"`; a token signed under a different secret
yields `"Invalid token"` (never `valid`, never `"Token expired"`); and for
a token signed under the generator's own secret, the error is
`"Token expired"` exactly when the lifetime has elapsed, `valid` otherwise. -/
theorem verifyToken_spec (g : S2STokenGenerator) (now : Nat) :
    (∀ t, (∃ p, g.verifyToken t now = .valid p) ∨
      g.verifyToken t now = .invalid "Token expired" ∨
      g.verifyToken t now = .invalid "Invalid token") ∧
    (∀ raw, g.verifyToken (.malformed raw) now = .invalid "Invalid token") ∧
    (∀ ty sv iat lt sec, sec ≠ g.jwtSecret →
      g.verifyToken (.signed ty sv iat lt sec) now = .invalid "Invalid token") ∧
    (∀ ty sv iat lt,
      (g.verifyToken (.signed ty sv iat lt g.jwtSecret) now =
          .invalid "Token expired" ↔ iat + lt ≤ now) ∧
      (now < iat + lt →
        g.verifyToken (.signed ty sv iat lt g.jwtSecret) now =
          .valid ⟨ty, sv, iat⟩)) := by
  refine ⟨?_, ?_, ?_, ?_⟩
  · intro t
    match t with
    | .malformed raw =>
      right; right; simp [S2STokenGenerator.verifyToken, jwtVerify]
    | .signed ty sv iat lt sec =>
      by_cases hs : sec = g.jwtSecret
      · by_cases he : iat + lt ≤ now
        · right; left
          simp [S2STokenGenerator.verifyToken, jwtVerify, hs, he]
        · left
          exact ⟨⟨ty, sv, iat⟩, by
            simp [S2STokenGenerator.verifyToken, jwtVerify, hs, he]⟩
      · right; right; simp [S2STokenGenerator.verifyToken, jwtVerify, hs]
  · intro raw; simp [S2STokenGenerator.verifyToken, jwtVerify]
  · intro ty sv iat lt sec hs
    simp [S2STokenGenerator.verifyToken, jwtVerify, hs]
  · intro ty sv iat lt
    constructor
    · constructor
      · intro h
        by_contra he
        simp [S2STokenGenerator.verifyToken, jwtVerify, he] at h
      · intro he
        simp [S2STokenGenerator.verifyToken, jwtVerify, he]
    · intro he
      simp [S2STokenGenerator.verifyToken, jwtVerify, Nat.not_le.mpr he]

/-- Witness for C4: the cross-secret case and the expired case at concrete
inputs. -/
theorem verifyToken_spec_witness :
    (S2STokenGenerator.mk "k2").verifyToken (.signed "access" "svc" 0 900 "k1") 5 =
      .invalid "Invalid token" ∧
    ((S2STokenGenerator.mk "k").verifyToken (.signed "access" "svc" 0 900 "k") 900 =
        .invalid "Token expired" ↔ 0 + 900 ≤ 900) ∧
    (S2STokenGenerator.mk "k").verifyToken (.signed "access" "svc" 0 900 "k") 5 =
      .valid ⟨"access", "svc", 0⟩ :=
  ⟨(verifyToken_spec ⟨"k2"⟩ 5).2.2.1 "access" "svc" 0 900 "k1" (by decide),
   ((verifyToken_spec ⟨"k"⟩ 900).2.2.2 "access" "svc" 0 900).1,
   ((verifyToken_spec ⟨"k"⟩ 5).2.2.2 "access" "svc" 0 900).2 (by decide)⟩

/-- C6: with a configured endpoint, `authenticate()` POSTs the JSON body
`apiKey = serviceApiKey, serviceName` to `{authEndpoint}/auth/s2s/token` as
its only transport call; a non-ok response rejects with
`"S2S authentication failed: " ++ body text` and leaves the state alone; an
ok response stores `accessToken`, `refreshToken` and
`accessTokenExpiry = now + expiresIn*1000` and returns the token pair; and
the outcome and the calls made never consult the cached token fields. -/
theorem authenticate_spec (st : S2SClient) (transport : HttpRequest → HttpResponse)
    (callEnv : Env) (now : Int) (h : jsFalsy st.authEndpoint = false) :
    let req : HttpRequest :=
      { url := jsShow st.authEndpoint ++ "/auth/s2s/token"
        method := "POST"
        headers := [("Content-Type", "application/json")]
        body := .authBody st.serviceApiKey st.serviceName }
    ((transport req).ok = false →
      st.authenticate transport callEnv now =
        (.error ("S2S authentication failed: " ++ (transport req).bodyText), st, [req])) ∧
    ((transport req).ok = true →
      st.authenticate transport callEnv now =
        (.ok ⟨(transport req).accessToken, (transport req).refreshToken⟩,
         { st with accessToken := some (transport req).accessToken,
                   refreshToken := some (transport req).refreshToken,
                   accessTokenExpiry := some (now + (transport req).expiresIn * 1000) },
         [req])) ∧
    (∀ a r x, (S2SClient.authenticate
        { st with accessToken := a, refreshToken := r, accessTokenExpiry := x }
        transport callEnv now).1 =
        (st.authenticate transport callEnv now).1 ∧
      (S2SClient.authenticate
        { st with accessToken := a, refreshToken := r, accessTokenExpiry := x }
        transport callEnv now).2.2 =
        (st.authenticate transport callEnv now).2.2) := by
  refine ⟨?_, ?_, ?_⟩
  · intro hok
    simp [S2SClient.authenticate, h, hok]
  · intro hok
    simp [S2SClient.authenticate, h, hok]
  · intro a r x
    constructor <;> simp [S2SClient.authenticate, h] <;> split <;> rfl

/-- Witness for C6: a concrete client against an all-ok transport. -/
theorem authenticate_spec_witness :
    jsFalsy (some "http://a" : Option String) = false ∧
    S2SClient.authenticate ⟨"key", "svc", some "http://a", none, none, none, none, 0⟩
      (fun _ => ⟨true, "", "AT", "RT", 900⟩) ⟨none⟩ 0 =
      (.ok ⟨"AT", "RT"⟩,
       ⟨"key", "svc", some "http://a", some "AT", some "RT", some 900000, none, 0⟩,
       [⟨"http://a/auth/s2s/token", "POST", [("Content-Type", "application/json")],
          .authBody "key" "svc"⟩]) :=
  ⟨by decide,
   (authenticate_spec ⟨"key", "svc", some "http://a", none, none, none, none, 0⟩
      (fun _ => ⟨true, "", "AT", "RT", 900⟩) ⟨none⟩ 0 (by decide)).2.1 rfl⟩

/-- C5: `refresh()` with a falsy stored refresh token delegates to
`authenticate()`; with a stored refresh token and a configured endpoint, a
non-ok refresh response makes it equal to one `authenticate()` on the state
with the refresh token cleared (its transport log being exactly the refresh
call followed by the single authenticate call — no further recursion),
while an ok response updates only `accessToken` and `accessTokenExpiry`,
leaving `refreshToken` and every other field untouched. -/
theorem refresh_spec (st : S2SClient) (transport : HttpRequest → HttpResponse)
    (callEnv : Env) (now : Int) :
    (jsFalsy st.refreshToken = true →
      st.refresh transport callEnv now =
        (let out := st.authenticate transport callEnv now
         (out.1.map .fromAuth, out.2.1, out.2.2))) ∧
    (jsFalsy st.refreshToken = false → jsFalsy st.authEndpoint = false →
      let req : HttpRequest :=
        { url := jsShow st.authEndpoint ++ "/auth/s2s/refresh"
          method := "POST"
          headers := [("Content-Type", "application/json")]
          body := .refreshBody (jsShow st.refreshToken) st.serviceName }
      let authReq : HttpRequest :=
        { url := jsShow st.authEndpoint ++ "/auth/s2s/token"
          method := "POST"
          headers := [("Content-Type", "application/json")]
          body := .authBody st.serviceApiKey st.serviceName }
      ((transport req).ok = false →
        st.refresh transport callEnv now =
          (let out := S2SClient.authenticate { st with refreshToken := none }
            transport callEnv now
           (out.1.map .fromAuth, out.2.1, req :: out.2.2)) ∧
        (st.refresh transport callEnv now).2.2 = [req, authReq]) ∧
      ((transport req).ok = true →
        st.refresh transport callEnv now =
          (.ok (.refreshed (transport req).accessToken),
           { st with accessToken := some (transport req).accessToken,
                     accessTokenExpiry := some (now + (transport req).expiresIn * 1000) },
           [req]))) := by
  refine ⟨?_, ?_⟩
  · intro hrt
    simp [S2SClient.refresh, hrt]
  · intro hrt hae
    refine ⟨?_, ?_⟩
    · intro hok
      constructor
      · simp [S2SClient.refresh, hrt, hae, hok]
      · simp [S2SClient.refresh, S2SClient.authenticate, hrt, hae, hok]
        split <;> rfl
    · intro hok
      simp [S2SClient.refresh, hrt, hae, hok]

/-- Witness for C5: the delegation branch, the dead-refresh-token fallback
branch (exactly two transport calls, the second to the token endpoint), and
the success branch, each at a concrete client. -/
theorem refresh_spec_witness :
    S2SClient.refresh ⟨"key", "svc", some "http://a", none, none, none, none, 0⟩
      (fun _ => ⟨true, "", "AT", "RT", 900⟩) ⟨none⟩ 0 =
      (.ok (.fromAuth ⟨"AT", "RT"⟩),
       ⟨"key", "svc", some "http://a", some "AT", some "RT", some 900000, none, 0⟩,
       [⟨"http://a/auth/s2s/token", "POST", [("Content-Type", "application/json")],
          .authBody "key" "svc"⟩]) ∧
    (S2SClient.refresh ⟨"key", "svc", some "http://a", none, some "rt", none, none, 0⟩
      (fun r => if r.url = "http://a/auth/s2s/refresh" then ⟨false, "dead", "", "", 0⟩
                else ⟨true, "", "AT2", "RT2", 900⟩) ⟨none⟩ 0).2.2 =
      [⟨"http://a/auth/s2s/refresh", "POST", [("Content-Type", "application/json")],
         .refreshBody "rt" "svc"⟩,
       ⟨"http://a/auth/s2s/token", "POST", [("Content-Type", "application/json")],
         .authBody "key" "svc"⟩] ∧
    S2SClient.refresh ⟨"key", "svc", some "http://a", none, some "rt", none, none, 0⟩
      (fun _ => ⟨true, "", "AT3", "RT3", 900⟩) ⟨none⟩ 0 =
      (.ok (.refreshed "AT3"),
       ⟨"key", "svc", some "http://a", some "AT3", some "rt", some 900000, none, 0⟩,
       [⟨"http://a/auth/s2s/refresh", "POST", [("Content-Type", "application/json")],
          .refreshBody "rt" "svc"⟩]) :=
  ⟨by
    have h := (refresh_spec ⟨"key", "svc", some "http://a", none, none, none, none, 0⟩
      (fun _ => ⟨true, "", "AT", "RT", 900⟩) ⟨none⟩ 0).1 (by decide)
    exact h,
   by
    have h := (((refresh_spec ⟨"key", "svc", some "http://a", none, some "rt", none, none, 0⟩
      (fun r => if r.url = "http://a/auth/s2s/refresh" then ⟨false, "dead", "", "", 0⟩
                else ⟨true, "", "AT2", "RT2", 900⟩) ⟨none⟩ 0).2
      (by decide) (by decide)).1 (by decide)).2
    exact h,
   by
    have h := ((refresh_spec ⟨"key", "svc", some "http://a", none, some "rt", none, none, 0⟩
      (fun _ => ⟨true, "", "AT3", "RT3", 900⟩) ⟨none⟩ 0).2
      (by decide) (by decide)).2 (by decide)
    exact h⟩

/-- C7: construction is fail-fast and all-or-nothing: a falsy
`serviceApiKey` aborts the `S2SClient` constructor with a message
containing "SERVICE_API_KEY is required" (exhibited as a prefix of the
thrown message), likewise a falsy `serviceName`; the `S2STokenGenerator`
constructor with no secret argument and no `S2S_JWT_SECRET` environment
value throws "S2S_JWT_SECRET is required"; and an instance is only ever
produced when the respective inputs were all present. -/
theorem construct_failFast :
    (∀ opts env, jsFalsy opts.serviceApiKey = true →
      S2SClient.construct opts env =
        .error ("SERVICE_API_KEY is required" ++ " for S2S authentication")) ∧
    (∀ opts env, jsFalsy opts.serviceApiKey = false →
      jsFalsy opts.serviceName = true →
      S2SClient.construct opts env =
        .error ("SERVICE_NAME is required" ++ " for S2S authentication")) ∧
    (∀ s e, jsFalsy s = true → jsFalsy e = true →
      S2STokenGenerator.construct s e = .error "S2S_JWT_SECRET is required") ∧
    (∀ opts env c, S2SClient.construct opts env = .ok c →
      jsFalsy opts.serviceApiKey = false ∧ jsFalsy opts.serviceName = false) ∧
    (∀ s e g, S2STokenGenerator.construct s e = .ok g →
      jsFalsy (jsOr s e) = false) := by
  refine ⟨?_, ?_, ?_, ?_, ?_⟩
  · intro opts env h
    simp [S2SClient.construct, h]
  · intro opts env h1 h2
    simp [S2SClient.construct, h1, h2]
  · intro s e h1 h2
    simp [S2STokenGenerator.construct, jsOr, h1, h2]
  · intro opts env c h
    by_cases h1 : jsFalsy opts.serviceApiKey = true
    · simp [S2SClient.construct, h1] at h
    · by_cases h2 : jsFalsy opts.serviceName = true
      · simp [S2SClient.construct, h1, h2] at h
      · exact ⟨by simpa using h1, by simpa using h2⟩
  · intro s e g h
    by_cases h1 : jsFalsy (jsOr s e) = true
    · simp [S2STokenGenerator.construct, h1] at h
    · simpa using h1

/-- Witness for C7: an omitted API key, an empty service name, and a fully
absent generator secret. -/
theorem construct_failFast_witness :
    S2SClient.construct ⟨none, some "svc", none⟩ ⟨none⟩ =
      .error ("SERVICE_API_KEY is required" ++ " for S2S authentication") ∧
    S2SClient.construct ⟨some "key", some "", none⟩ ⟨none⟩ =
      .error ("SERVICE_NAME is required" ++ " for S2S authentication") ∧
    S2STokenGenerator.construct none none = .error "S2S_JWT_SECRET is required" :=
  ⟨construct_failFast.1 ⟨none, some "svc", none⟩ ⟨none⟩ (by decide),
   construct_failFast.2.1 ⟨some "key", some "", none⟩ ⟨none⟩ (by decide) (by decide),
   construct_failFast.2.2.1 none none (by decide) (by decide)⟩

/-- Counterexample to C9 as stated: the source reads
`process.env.S2S_AUTH_ENDPOINT` in the constructor, not at call time.  A
client constructed with no endpoint and an environment lacking the variable
still fails `authenticate()` and `refresh()` with
"S2S_AUTH_ENDPOINT not configured" even when the call-time environment does
carry `S2S_AUTH_ENDPOINT = "http://late"`. -/
theorem authEndpoint_callTime_counterexample :
    S2SClient.construct ⟨some "key", some "svc", none⟩ ⟨none⟩ =
      .ok ⟨"key", "svc", none, none, none, none, none, 0⟩ ∧
    (S2SClient.authenticate ⟨"key", "svc", none, none, none, none, none, 0⟩
      (fun _ => ⟨true, "", "AT", "RT", 900⟩) ⟨some "http://late"⟩ 0).1 =
      .error "S2S_AUTH_ENDPOINT not configured" ∧
    (S2SClient.refresh ⟨"key", "svc", none, none, none, none, none, 0⟩
      (fun _ => ⟨true, "", "AT", "RT", 900⟩) ⟨some "http://late"⟩ 0).1 =
      .error "S2S_AUTH_ENDPOINT not configured" :=
  ⟨rfl, rfl, rfl⟩

/-- C9 as amended: if `authEndpoint` is not supplied at construction, the
constructor reads it from the `S2S_AUTH_ENDPOINT` environment variable at
construction time; `authenticate()` and `refresh()` fail with the clear
error "S2S_AUTH_ENDPOINT not configured" if the endpoint is still absent
when they are called, whatever the call-time environment holds. -/
theorem authEndpoint_constructionTimeFallback (opts : ClientOptions) (env : Env)
    (st : S2SClient) (h : S2SClient.construct opts env = .ok st)
    (transport : HttpRequest → HttpResponse) (callEnv : Env) (now : Int) :
    st.authEndpoint = jsOr opts.authEndpoint env.s2sAuthEndpoint ∧
    (jsFalsy st.authEndpoint = true →
      (st.authenticate transport callEnv now).1 =
        .error "S2S_AUTH_ENDPOINT not configured" ∧
      (st.refresh transport callEnv now).1 =
        .error "S2S_AUTH_ENDPOINT not configured") := by
  unfold S2SClient.construct at h
  by_cases h1 : jsFalsy opts.serviceApiKey = true
  · simp [h1] at h
  · by_cases h2 : jsFalsy opts.serviceName = true
    · simp [h1, h2] at h
    · simp [h1, h2] at h
      subst h
      refine ⟨rfl, ?_⟩
      intro hae
      have hae2 : jsFalsy (jsOr opts.authEndpoint env.s2sAuthEndpoint) = true := hae
      constructor
      · simp [S2SClient.authenticate, hae2]
      · simp [S2SClient.refresh, S2SClient.authenticate, hae2, Except.map]

/-- Witness for the amended C9: the concrete client of the counterexample,
with the endpoint absent both in the options and in the construction-time
environment. -/
theorem authEndpoint_constructionTimeFallback_witness :
    (⟨"key", "svc", none, none, none, none, none, 0⟩ : S2SClient).authEndpoint =
      jsOr none none ∧
    (S2SClient.refresh ⟨"key", "svc", none, none, none, none, none, 0⟩
      (fun _ => ⟨true, "", "AT", "RT", 900⟩) ⟨some "http://late"⟩ 0).1 =
      .error "S2S_AUTH_ENDPOINT not configured" :=
  have h := authEndpoint_constructionTimeFallback ⟨some "key", some "svc", none⟩ ⟨none⟩
    ⟨"key", "svc", none, none, none, none, none, 0⟩ rfl
    (fun _ => ⟨true, "", "AT", "RT", 900⟩) ⟨some "http://late"⟩ 0
  ⟨h.1, (h.2 rfl).2⟩

/-- C8: `request(url, options)` first obtains a token via `getValidToken()`
and then invokes the transport exactly once more, with the original url,
method and body and with merged headers in which `Authorization` reads
`Bearer <token>`, `X-Service-Name` reads the service name, and every
caller-supplied header whose name is neither of those two keeps its
caller-supplied value. -/
theorem request_spec (st : S2SClient) (transport : HttpRequest → HttpResponse)
    (callEnv : Env) (now : Int) (url : String) (options : RequestOptions)
    (token : Option String) (st1 : S2SClient) (calls : List HttpRequest)
    (h : st.getValidTokenRun transport callEnv now = (.ok token, st1, calls)) :
    let authValue := "Bearer " ++ jsShow token
    let merged := options.headers ++
      [("Authorization", authValue), ("X-Service-Name", st.serviceName)]
    let req : HttpRequest := ⟨url, options.method, merged, options.body⟩
    st.request transport callEnv now url options =
      (.ok (transport req), st1, calls ++ [req]) ∧
    objGet merged "Authorization" = some authValue ∧
    objGet merged "X-Service-Name" = some st.serviceName ∧
    (∀ k, k ≠ "Authorization" → k ≠ "X-Service-Name" →
      objGet merged k = objGet options.headers k) := by
  refine ⟨?_, ?_, ?_, ?_⟩
  · simp [S2SClient.request, h]
  · simp [objGet, List.find?]
  · simp [objGet, List.find?]
  · intro k hk1 hk2
    simp [objGet, List.find?, Ne.symm hk1, Ne.symm hk2]

/-- Witness for C8: a client holding a fresh cached token sends a `GET` with
the caller's `Accept` header preserved next to the two injected headers. -/
theorem request_spec_witness :
    S2SClient.request
      ⟨"key", "svc", some "http://a", some "tok", some "rt", some 120000, none, 0⟩
      (fun _ => ⟨true, "", "", "", 0⟩) ⟨none⟩ 0 "http://svc/x"
      ⟨"GET", [("Accept", "application/json")], .empty⟩ =
      (.ok ⟨true, "", "", "", 0⟩,
       ⟨"key", "svc", some "http://a", some "tok", some "rt", some 120000, none, 0⟩,
       [⟨"http://svc/x", "GET",
          [("Accept", "application/json"), ("Authorization", "Bearer tok"),
           ("X-Service-Name", "svc")], .empty⟩]) ∧
    objGet [("Accept", "application/json"), ("Authorization", "Bearer tok"),
      ("X-Service-Name", "svc")] "Accept" = some "application/json" :=
  have h := request_spec
    ⟨"key", "svc", some "http://a", some "tok", some "rt", some 120000, none, 0⟩
    (fun _ => ⟨true, "", "", "", 0⟩) ⟨none⟩ 0 "http://svc/x"
    ⟨"GET", [("Accept", "application/json")], .empty⟩
    (some "tok")
    ⟨"key", "svc", some "http://a", some "tok", some "rt", some 120000, none, 0⟩
    [] rfl
  ⟨h.1, (h.2.2.2 "Accept" (by decide) (by decide)).trans (by decide)⟩

/-- Callers whose synchronous prefix finds a renewal already in flight all
suspend on that same promise and change nothing: no further renewal is
started. -/
theorem runCallers_inflight (times : List Int) (st : S2SClient) (p : Nat)
    (hp : st.refreshing = some p)
    (hn : ∀ t ∈ times, needsRefresh st t = true) :
    runCallers times st = (times.map (fun _ => GvtAction.awaits p), st, 0) := by
  induction times with
  | nil => rfl
  | cons t rest ih =>
    have hstep : getValidTokenStep st t = (.awaits p, st, 0) := by
      simp [getValidTokenStep, hn t (List.mem_cons_self _ _), hp]
    simp [runCallers, hstep, ih (fun u hu => hn u (List.mem_cons_of_mem _ hu))]

/-- C1: when a burst of overlapping `getValidToken()` calls runs while no
valid access token is cached (every caller's `needsRefresh` check passes)
and no renewal is in flight, exactly one `refresh()` renewal is started,
every caller awaits that same pending promise, and once it settles —
whatever the transport answers, resolution or rejection — the in-flight
marker `this.refreshing` is back to `null` and every suspended caller
resolves to the same access token, the one then held by the instance. -/
theorem getValidToken_singleFlight (st : S2SClient) (times : List Int)
    (transport : HttpRequest → HttpResponse) (callEnv : Env) (settleTime : Int)
    (hNo : ∀ t ∈ times, needsRefresh st t = true)
    (hIdle : st.refreshing = none) (hNe : times ≠ []) :
    (runCallers times st).2.2 = 1 ∧
    (runCallers times st).1 =
      times.map (fun _ => GvtAction.awaits st.nextPromiseId) ∧
    (runCallers times st).2.1 =
      { st with refreshing := some st.nextPromiseId,
                nextPromiseId := st.nextPromiseId + 1 } ∧
    (settleRefreshing (runCallers times st).2.1 transport callEnv
      settleTime).2.1.refreshing = none ∧
    (∀ a ∈ (runCallers times st).1,
      resolveCaller a
        (settleRefreshing (runCallers times st).2.1 transport callEnv settleTime).2.1 =
      (settleRefreshing (runCallers times st).2.1 transport callEnv
        settleTime).2.1.accessToken) := by
  match times with
  | [] => exact absurd rfl hNe
  | t :: rest =>
    have hstep : getValidTokenStep st t =
        (.awaits st.nextPromiseId,
         { st with refreshing := some st.nextPromiseId,
                   nextPromiseId := st.nextPromiseId + 1 }, 1) := by
      simp [getValidTokenStep, hNo t (List.mem_cons_self _ _), hIdle]
    have hrest := runCallers_inflight rest
      { st with refreshing := some st.nextPromiseId,
                nextPromiseId := st.nextPromiseId + 1 }
      st.nextPromiseId rfl
      (fun u hu => hNo u (List.mem_cons_of_mem _ hu))
    have hrun : runCallers (t :: rest) st =
        ((t :: rest).map (fun _ => GvtAction.awaits st.nextPromiseId),
         { st with refreshing := some st.nextPromiseId,
                   nextPromiseId := st.nextPromiseId + 1 }, 1) := by
      simp [runCallers, hstep, hrest]
    refine ⟨by simp [hrun], by simp [hrun], by simp [hrun], ?_, ?_⟩
    · simp [hrun, settleRefreshing]
    · intro a ha
      rw [hrun] at ha
      simp only [List.mem_map] at ha
      obtain ⟨u, hu, rfl⟩ := ha
      rfl

/-- Witness for C1: three overlapping callers on a freshly constructed
client, then the renewal settling against an all-ok transport. -/
theorem getValidToken_singleFlight_witness :
    (∀ t ∈ ([0, 0, 0] : List Int),
      needsRefresh ⟨"key", "svc", some "http://a", none, none, none, none, 0⟩ t = true) ∧
    (runCallers [0, 0, 0]
      ⟨"key", "svc", some "http://a", none, none, none, none, 0⟩).2.2 = 1 ∧
    (runCallers [0, 0, 0]
      ⟨"key", "svc", some "http://a", none, none, none, none, 0⟩).1 =
      [.awaits 0, .awaits 0, .awaits 0] ∧
    (settleRefreshing
      (runCallers [0, 0, 0]
        ⟨"key", "svc", some "http://a", none, none, none, none, 0⟩).2.1
      (fun _ => ⟨true, "", "AT", "RT", 900⟩) ⟨none⟩ 0).2.1.refreshing = none :=
  have h := getValidToken_singleFlight
    ⟨"key", "svc", some "http://a", none, none, none, none, 0⟩ [0, 0, 0]
    (fun _ => ⟨true, "", "AT", "RT", 900⟩) ⟨none⟩ 0
    (by decide) rfl (by decide)
  ⟨by decide, h.1, h.2.1, h.2.2.2.1⟩

/-- C10: a request whose path starts (by `startsWith`, so a prefix match —
"/healthanything" matches "/health") with one of the default excluded
prefixes makes the middleware of `createS2SAuthMiddleware` call `next()`
unconditionally, without examining the `Authorization` header: the outcome
is `next()` with no service attached for every header value, missing,
malformed, expired or wrongly signed alike. -/
theorem excludedPaths_skipAuth (jwtSecret : String) (decode : String → Jwt)
    (now : Nat) (req : MwRequest)
    (h : (defaultExcludePaths.any (fun p => jsStartsWith req.path p)) = true) :
    s2sAuthMiddleware jwtSecret defaultExcludePaths decode now req =
      .next none none := by
  simp [s2sAuthMiddleware, h]

/-- Witness for C10: the path "/healthanything" with a garbage bearer token
sails through unauthenticated. -/
theorem excludedPaths_skipAuth_witness :
    (defaultExcludePaths.any (fun p => jsStartsWith "/healthanything" p)) = true ∧
    s2sAuthMiddleware "k" defaultExcludePaths (fun s => .malformed s) 0
      ⟨"/healthanything", some "Bearer garbage"⟩ = .next none none :=
  ⟨by decide, excludedPaths_skipAuth "k" (fun s => .malformed s) 0
    ⟨"/healthanything", some "Bearer garbage"⟩ (by decide)⟩

end Enfinia
